import Mathlib

set_option maxRecDepth 100000

/-!
Shallow embedding of the Go game session engine of this repository
(src/src/models/Game.ts and the game routes in src/unnamed/part_000).

The mongoose document fields that the claims touch are translated into
plain Lean structures; JavaScript Date values are passed in as a `now`
parameter of type Nat; ObjectId values are abstracted as Nat.  Methods
that mutate the document and `throw` are translated to functions
returning `Except (GameError × Game) ...`, where the `Game` carried in
the error is the document state at the moment of the throw (so that
atomicity of rejected operations is a real theorem about statement
order, not an artifact of the embedding).
-/

inductive StoneColor
  | black
  | white
deriving DecidableEq

inductive GameSessionStatus
  | waiting
  | active
  | paused
  | completed
  | abandoned
deriving DecidableEq

inductive KoRule
  | standard
  | superko
deriving DecidableEq

inductive ScoringMethod
  | area
  | territory
deriving DecidableEq

/-- One cell of boardState.board: stone, the per-cell liberties counter
and the per-cell group identifier (Game.ts schema lines 91-95). -/
structure GameBoardCell where
  stone : Option StoneColor
  liberties : Nat
  groupId : Option String
deriving DecidableEq

structure LastMove where
  x : Int
  y : Int
  color : StoneColor
  timestamp : Nat
deriving DecidableEq

structure CapturedPosition where
  x : Int
  y : Int
deriving DecidableEq

/-- One entry of boardState.moveHistory (Game.ts schema lines 100-111). -/
structure MoveRecord where
  playerId : Nat
  color : StoneColor
  x : Int
  y : Int
  timestamp : Nat
  capturedStones : List CapturedPosition
  pass : Bool
deriving DecidableEq

/-- The boardState.capturedStones counters (Game.ts schema lines 96-99). -/
structure CapturedStones where
  black : Nat
  white : Nat
deriving DecidableEq

structure GameBoardState where
  currentTurn : StoneColor
  moveCount : Nat
  lastMove : Option LastMove
  board : List (List GameBoardCell)
  capturedStones : CapturedStones
  moveHistory : List MoveRecord
  consecutivePasses : Nat
deriving DecidableEq

structure GamePlayer where
  playerId : Nat
  username : String
  displayName : String
  color : StoneColor
  isReady : Bool
  isConnected : Bool
  lastSeen : Nat
  timeRemaining : Option Nat
  score : Nat
  capturedStones : Nat
deriving DecidableEq

structure GameSessionSettings where
  boardSize : Nat
  timeControl : String
  timeLimit : Option Nat
  handicap : Nat
  komi : Rat
  allowUndo : Bool
  allowResign : Bool
deriving DecidableEq

structure GameRules where
  suicideAllowed : Bool
  koRule : KoRule
  scoringMethod : ScoringMethod
deriving DecidableEq

/-- The session document, restricted to the fields read or written by the
operations the claims are about (metadata and chat are neither read nor
written by addPlayer, makeMove, passTurn or startGame). -/
structure Game where
  gameId : String
  status : GameSessionStatus
  players : List GamePlayer
  gameSettings : GameSessionSettings
  boardState : GameBoardState
  gameRules : GameRules
deriving DecidableEq

/-- The reasons thrown by the Game document methods, one per `throw new
Error(...)` site; `cellAccessError` stands for the JavaScript TypeError
that board[y][x].stone would raise when the row or cell is undefined. -/
inductive GameError
  | gameNotActive
  | notYourTurn
  | invalidCoordinates
  | positionOccupied
  | gameIsFull
  | needTwoPlayers
  | playersNotReady
  | cellAccessError
deriving DecidableEq

def GameError.message : GameError → String
  | GameError.gameNotActive => "Game is not active"
  | GameError.notYourTurn => "Not your turn"
  | GameError.invalidCoordinates => "Invalid coordinates"
  | GameError.positionOccupied => "Position already occupied"
  | GameError.gameIsFull => "Game is full"
  | GameError.needTwoPlayers => "Need exactly 2 players to start"
  | GameError.playersNotReady => "All players must be ready"
  | GameError.cellAccessError => "TypeError"

def getCell (b : List (List GameBoardCell)) (y x : Nat) : Option GameBoardCell :=
  (b.get? y).bind (fun row => row.get? x)

def setCell (b : List (List GameBoardCell)) (y x : Nat) (c : GameBoardCell) :
    List (List GameBoardCell) :=
  match b.get? y with
  | some row => b.set y (row.set x c)
  | none => b

/-- board[y][x].liberties = lib, as used by initializeBoard. -/
def setLiberties (b : List (List GameBoardCell)) (y x lib : Nat) :
    List (List GameBoardCell) :=
  match getCell b y x with
  | some c => setCell b y x { c with liberties := lib }
  | none => b

def freshCell : GameBoardCell := { stone := none, liberties := 4, groupId := none }

/-- Game.ts initializeBoard (lines 152-175): a size by size grid of
cells with stone null, liberties 4, groupId null; then the edge cells
get liberties 3 and the four corners liberties 2. -/
def initializeBoard (size : Nat) : List (List GameBoardCell) :=
  let base := List.replicate size (List.replicate size freshCell)
  let edged := (List.range size).foldl (fun b i =>
    let b1 := setLiberties b 0 i 3
    let b2 := setLiberties b1 (size - 1) i 3
    let b3 := setLiberties b2 i 0 3
    setLiberties b3 i (size - 1) 3) base
  let c1 := setLiberties edged 0 0 2
  let c2 := setLiberties c1 0 (size - 1) 2
  let c3 := setLiberties c2 (size - 1) 0 2
  setLiberties c3 (size - 1) (size - 1) 2

structure GamePlayerData where
  playerId : Nat
  username : String
  displayName : String
deriving DecidableEq

/-- Game.ts addPlayer (lines 178-191): throws when two seats are taken,
else pushes the new player; the first seat gets black, the second white;
score and capturedStones come from the schema defaults (0). -/
def addPlayer (g : Game) (pd : GamePlayerData) (now : Nat) :
    Except (GameError × Game) Game :=
  if g.players.length ≥ 2 then
    Except.error (GameError.gameIsFull, g)
  else
    let color := if g.players.length = 0 then StoneColor.black else StoneColor.white
    let p : GamePlayer :=
      { playerId := pd.playerId, username := pd.username,
        displayName := pd.displayName, color := color,
        isReady := false, isConnected := true, lastSeen := now,
        timeRemaining := none, score := 0, capturedStones := 0 }
    Except.ok { g with players := g.players ++ [p] }

/-- Game.ts makeMove (lines 194-232), translated statement by statement:
the four precondition checks in source order, then the history push, the
stone placement, the moveCount increment, the turn flip, the lastMove
update and the consecutivePasses reset, then `return true`. -/
def makeMove (g : Game) (playerId : Nat) (x y : Int) (color : StoneColor)
    (now : Nat) : Except (GameError × Game) (Game × Bool) :=
  if g.status ≠ GameSessionStatus.active then
    Except.error (GameError.gameNotActive, g)
  else if g.boardState.currentTurn ≠ color then
    Except.error (GameError.notYourTurn, g)
  else if x < 0 ∨ (g.gameSettings.boardSize : Int) ≤ x ∨ y < 0 ∨
      (g.gameSettings.boardSize : Int) ≤ y then
    Except.error (GameError.invalidCoordinates, g)
  else
    match getCell g.boardState.board y.toNat x.toNat with
    | none => Except.error (GameError.cellAccessError, g)
    | some cell =>
      if cell.stone ≠ none then
        Except.error (GameError.positionOccupied, g)
      else
        let entry : MoveRecord :=
          { playerId := playerId, color := color, x := x, y := y,
            timestamp := now, capturedStones := [], pass := false }
        let bs1 : GameBoardState := { g.boardState with
          moveHistory := g.boardState.moveHistory ++ [entry] }
        let bs2 : GameBoardState := { bs1 with
          board := setCell bs1.board y.toNat x.toNat { cell with stone := some color } }
        let bs3 : GameBoardState := { bs2 with moveCount := bs2.moveCount + 1 }
        let bs4 : GameBoardState := { bs3 with
          currentTurn := if color = StoneColor.black then StoneColor.white
            else StoneColor.black }
        let bs5 : GameBoardState := { bs4 with
          lastMove := some { x := x, y := y, color := color, timestamp := now } }
        let bs6 : GameBoardState := { bs5 with consecutivePasses := 0 }
        Except.ok ({ g with boardState := bs6 }, true)

/-- Game.ts passTurn (lines 235-262): the two precondition checks, the
pass entry push (the pushed object has no capturedStones key, so the
schema default [] applies), the turn flip, the consecutivePasses
increment, the completed transition at two consecutive passes, then
`return true`. -/
def passTurn (g : Game) (playerId : Nat) (color : StoneColor) (now : Nat) :
    Except (GameError × Game) (Game × Bool) :=
  if g.status ≠ GameSessionStatus.active then
    Except.error (GameError.gameNotActive, g)
  else if g.boardState.currentTurn ≠ color then
    Except.error (GameError.notYourTurn, g)
  else
    let entry : MoveRecord :=
      { playerId := playerId, color := color, x := -1, y := -1,
        timestamp := now, capturedStones := [], pass := true }
    let bs1 : GameBoardState := { g.boardState with
      moveHistory := g.boardState.moveHistory ++ [entry] }
    let bs2 : GameBoardState := { bs1 with
      currentTurn := if color = StoneColor.black then StoneColor.white
        else StoneColor.black }
    let bs3 : GameBoardState := { bs2 with consecutivePasses := bs2.consecutivePasses + 1 }
    let g1 : Game := { g with boardState := bs3 }
    let g2 : Game := if bs3.consecutivePasses ≥ 2 then
        { g1 with status := GameSessionStatus.completed }
      else g1
    Except.ok (g2, true)

/-- Game.ts startGame (lines 297-309): requires exactly two seated
players, all ready; sets status active and reinitializes the board. -/
def startGame (g : Game) : Except (GameError × Game) Game :=
  if g.players.length ≠ 2 then
    Except.error (GameError.needTwoPlayers, g)
  else if ¬ g.players.all (fun p => p.isReady) then
    Except.error (GameError.playersNotReady, g)
  else
    Except.ok { g with
      status := GameSessionStatus.active,
      boardState := { g.boardState with
        board := initializeBoard g.gameSettings.boardSize } }

/-- The rejection responses of POST /:gameId/join (part_000 lines
161-218), in source order. -/
inductive JoinError
  | gameNotAcceptingPlayers
  | gameIsFull
  | alreadyInGame
  | internalFailure (e : GameError)
deriving DecidableEq

/-- POST /:gameId/join (part_000 lines 161-218), with the game already
loaded: reject unless status is waiting, reject when two seats are
taken, reject when the caller already holds a seat, else addPlayer. -/
def joinGame (g : Game) (pd : GamePlayerData) (now : Nat) :
    Except JoinError Game :=
  if g.status ≠ GameSessionStatus.waiting then
    Except.error JoinError.gameNotAcceptingPlayers
  else if g.players.length ≥ 2 then
    Except.error JoinError.gameIsFull
  else if g.players.any (fun p => p.playerId == pd.playerId) then
    Except.error JoinError.alreadyInGame
  else
    match addPlayer g pd now with
    | Except.ok g2 => Except.ok g2
    | Except.error (e, _) => Except.error (JoinError.internalFailure e)

def exceptIsOk {ε α : Type} : Except ε α → Bool
  | Except.ok _ => true
  | Except.error _ => false

instance {ε α : Type} [DecidableEq ε] [DecidableEq α] : DecidableEq (Except ε α) := fun x y =>
  match x, y with
  | Except.ok a, Except.ok b =>
    if h : a = b then isTrue (h ▸ rfl) else isFalse (fun he => h (Except.ok.inj he))
  | Except.error a, Except.error b =>
    if h : a = b then isTrue (h ▸ rfl) else isFalse (fun he => h (Except.error.inj he))
  | Except.ok _, Except.error _ => isFalse (fun he => Except.noConfusion he)
  | Except.error _, Except.ok _ => isFalse (fun he => Except.noConfusion he)

/-- Modelled from the spec: the stone occupying an intersection, read
through the same board representation the code uses (board[y][x]). -/
def stoneAt (b : List (List GameBoardCell)) (x y : Nat) : Option StoneColor :=
  match getCell b y x with
  | some c => c.stone
  | none => none

/-- Modelled from the spec: the in-bounds 4-neighbourhood of an
intersection of an n by n board. -/
def nbrs (n x y : Nat) : List (Nat × Nat) :=
  (if x + 1 < n then [(x + 1, y)] else []) ++
  (if 0 < x then [(x - 1, y)] else []) ++
  (if y + 1 < n then [(x, y + 1)] else []) ++
  (if 0 < y then [(x, y - 1)] else [])

def insertNew (acc : List (Nat × Nat)) (q : Nat × Nat) : List (Nat × Nat) :=
  if acc.contains q then acc else acc ++ [q]

/-- Modelled from the spec: one flood-fill saturation loop collecting
the same-color 4-connected component, with explicit fuel (the source
repository has no groupAt function; spec section 4.1 defines it). -/
def growGroup (b : List (List GameBoardCell)) (n : Nat) (c : StoneColor) :
    Nat → List (Nat × Nat) → List (Nat × Nat)
  | 0, cur => cur
  | Nat.succ fuel, cur =>
    let frontier := (cur.map (fun p => (nbrs n p.1 p.2).filter
      (fun q => decide (stoneAt b q.1 q.2 = some c)))).flatten
    let next := frontier.foldl insertNew cur
    if next.length = cur.length then cur else growGroup b n c fuel next

/-- Modelled from the spec: the maximal same-color 4-connected group
through the intersection (x, y); empty list when the intersection is
empty. -/
def groupAt (b : List (List GameBoardCell)) (n x y : Nat) : List (Nat × Nat) :=
  match stoneAt b x y with
  | none => []
  | some c => growGroup b n c (n * n) [(x, y)]

/-- Modelled from the spec: the number of distinct empty intersections
adjacent to any stone of the group (flood-fill liberty count, spec
sections 3 and 4.1). -/
def groupLibertyCount (b : List (List GameBoardCell)) (n : Nat)
    (grp : List (Nat × Nat)) : Nat :=
  ((grp.map (fun p => (nbrs n p.1 p.2).filter
    (fun q => decide (stoneAt b q.1 q.2 = none)))).flatten).dedup.length

def libertyCountAt (b : List (List GameBoardCell)) (n x y : Nat) : Nat :=
  groupLibertyCount b n (groupAt b n x y)

/-- Applying makeMove as the route does, keeping the document state the
method left behind whether it returned or threw. -/
def stepMove (g : Game) (pid : Nat) (x y : Int) (c : StoneColor) (t : Nat) : Game :=
  match makeMove g pid x y c t with
  | Except.ok (g2, _) => g2
  | Except.error (_, g2) => g2

def stepPass (g : Game) (pid : Nat) (c : StoneColor) (t : Nat) : Game :=
  match passTurn g pid c t with
  | Except.ok (g2, _) => g2
  | Except.error (_, g2) => g2

inductive GameOp
  | move (pid : Nat) (x y : Int) (c : StoneColor) (t : Nat)
  | pass (pid : Nat) (c : StoneColor) (t : Nat)

def applyOp (g : Game) : GameOp → Game
  | GameOp.move pid x y c t => stepMove g pid x y c t
  | GameOp.pass pid c t => stepPass g pid c t

def runOps (g : Game) (ops : List GameOp) : Game := ops.foldl applyOp g

/-- The per-cell fields other than the stone: the liberties counter and
the groupId, which initializeBoard sets and no other method touches. -/
def cellMeta (c : GameBoardCell) : Nat × Option String := (c.liberties, c.groupId)

def boardMeta (b : List (List GameBoardCell)) : List (List (Nat × Option String)) :=
  b.map (fun row => row.map cellMeta)

/-- Frame relation between a session state and a later one: the per-cell
liberties and groupId fields, the capture counters and the player roster
are untouched, and the move history has only grown, every new entry
carrying an empty capturedStones list. -/
def framePreserved (g g2 : Game) : Prop :=
  boardMeta g2.boardState.board = boardMeta g.boardState.board ∧
  g2.boardState.capturedStones = g.boardState.capturedStones ∧
  g2.players = g.players ∧
  ∃ es, g2.boardState.moveHistory = g.boardState.moveHistory ++ es ∧
    ∀ e ∈ es, e.capturedStones = []

def blackSeat : GamePlayer :=
  { playerId := 1, username := "alice", displayName := "Alice",
    color := StoneColor.black, isReady := true, isConnected := true,
    lastSeen := 0, timeRemaining := none, score := 0, capturedStones := 0 }

def whiteSeat : GamePlayer :=
  { playerId := 2, username := "bob", displayName := "Bob",
    color := StoneColor.white, isReady := true, isConnected := true,
    lastSeen := 0, timeRemaining := none, score := 0, capturedStones := 0 }

def settings9 : GameSessionSettings :=
  { boardSize := 9, timeControl := "None", timeLimit := none,
    handicap := 0, komi := Rat.mk' 13 2 (by norm_num) (by norm_num),
    allowUndo := false, allowResign := true }

/-- The default ruleset the game-creation route writes (part_000 lines
45-49): suicideAllowed false, koRule standard, territory scoring. -/
def defaultRules : GameRules :=
  { suicideAllowed := false, koRule := KoRule.standard,
    scoringMethod := ScoringMethod.territory }

/-- A 9x9 session right after startGame: two seated ready players,
status active, freshly initialized board, empty history. -/
def activeGame9 : Game :=
  { gameId := "g1", status := GameSessionStatus.active,
    players := [blackSeat, whiteSeat],
    gameSettings := settings9,
    boardState :=
      { currentTurn := StoneColor.black, moveCount := 0, lastMove := none,
        board := initializeBoard 9,
        capturedStones := { black := 0, white := 0 },
        moveHistory := [], consecutivePasses := 0 },
    gameRules := defaultRules }

/-- Placing a stone into a cell read from the board, exactly the board
write makeMove performs (board[y][x].stone = color). -/
def placeRaw (b : List (List GameBoardCell)) (x y : Nat) (c : StoneColor) :
    List (List GameBoardCell) :=
  match getCell b y x with
  | some cell => setCell b y x { cell with stone := some c }
  | none => b

/-- The session state an accepted makeMove leaves behind, written out as
one record update (read off the commit block of Game.ts lines 211-231). -/
def movedGame (g : Game) (pid : Nat) (x y : Int) (c : StoneColor) (t : Nat) : Game :=
  { g with boardState :=
    { g.boardState with
      moveHistory := g.boardState.moveHistory ++
        [{ playerId := pid, color := c, x := x, y := y, timestamp := t,
           capturedStones := [], pass := false }],
      board := placeRaw g.boardState.board x.toNat y.toNat c,
      moveCount := g.boardState.moveCount + 1,
      currentTurn := if c = StoneColor.black then StoneColor.white
        else StoneColor.black,
      lastMove := some { x := x, y := y, color := c, timestamp := t },
      consecutivePasses := 0 } }

/-- The board state an accepted passTurn leaves behind (Game.ts lines
244-254). -/
def passedBoardState (g : Game) (pid : Nat) (c : StoneColor) (t : Nat) : GameBoardState :=
  { g.boardState with
    moveHistory := g.boardState.moveHistory ++
      [{ playerId := pid, color := c, x := -1, y := -1, timestamp := t,
         capturedStones := [], pass := true }],
    currentTurn := if c = StoneColor.black then StoneColor.white
      else StoneColor.black,
    consecutivePasses := g.boardState.consecutivePasses + 1 }

/-- The session state an accepted passTurn leaves behind (Game.ts lines
244-259). -/
def passedGame (g : Game) (pid : Nat) (c : StoneColor) (t : Nat) : Game :=
  if (passedBoardState g pid c t).consecutivePasses ≥ 2 then
    { g with
      boardState := passedBoardState g pid c t,
      status := GameSessionStatus.completed }
  else
    { g with boardState := passedBoardState g pid c t }

/-- Modelled from the spec: the commit exactly as claim C7 words it -
append the move, update the board with the placed stone, reset the
consecutive-pass counter to 0 and flip the turn, and nothing else. -/
def specCommitOnly (g : Game) (pid : Nat) (x y : Int) (c : StoneColor) (t : Nat) : Game :=
  { g with boardState :=
    { g.boardState with
      moveHistory := g.boardState.moveHistory ++
        [{ playerId := pid, color := c, x := x, y := y, timestamp := t,
           capturedStones := [], pass := false }],
      board := placeRaw g.boardState.board x.toNat y.toNat c,
      consecutivePasses := 0,
      currentTurn := if c = StoneColor.black then StoneColor.white
        else StoneColor.black } }

def c1Mid1 : Game := stepMove activeGame9 1 1 0 StoneColor.black 1
def c1Mid2 : Game := stepMove c1Mid1 2 0 0 StoneColor.white 2
def c1After : Game := stepMove c1Mid2 1 0 1 StoneColor.black 3

def c4Mid : Game :=
  stepMove (stepMove (stepMove (stepMove activeGame9 1 4 4 StoneColor.black 1)
    2 1 0 StoneColor.white 2) 1 5 5 StoneColor.black 3) 2 0 1 StoneColor.white 4
def c4After : Game := stepMove c4Mid 1 0 0 StoneColor.black 5

/-- The board of a simple-ko position on 9x9 as the intended engine
would hold it: black stones at (1,0), (0,1), (1,2), (2,1) and (8,8),
white stones at (2,0), (2,2) and (3,1); the white stone that stood at
(1,1) has just been captured by the black play at (2,1). -/
def koBoard : List (List GameBoardCell) :=
  placeRaw (placeRaw (placeRaw (placeRaw (placeRaw (placeRaw (placeRaw
    (placeRaw (initializeBoard 9)
      1 0 StoneColor.black) 0 1 StoneColor.black) 1 2 StoneColor.black)
      2 1 StoneColor.black) 8 8 StoneColor.black)
      2 0 StoneColor.white) 2 2 StoneColor.white) 3 1 StoneColor.white

def koHistory : List MoveRecord :=
  [ { playerId := 1, color := StoneColor.black, x := 1, y := 0, timestamp := 1,
      capturedStones := [], pass := false },
    { playerId := 2, color := StoneColor.white, x := 2, y := 0, timestamp := 2,
      capturedStones := [], pass := false },
    { playerId := 1, color := StoneColor.black, x := 0, y := 1, timestamp := 3,
      capturedStones := [], pass := false },
    { playerId := 2, color := StoneColor.white, x := 2, y := 2, timestamp := 4,
      capturedStones := [], pass := false },
    { playerId := 1, color := StoneColor.black, x := 1, y := 2, timestamp := 5,
      capturedStones := [], pass := false },
    { playerId := 2, color := StoneColor.white, x := 3, y := 1, timestamp := 6,
      capturedStones := [], pass := false },
    { playerId := 1, color := StoneColor.black, x := 8, y := 8, timestamp := 7,
      capturedStones := [], pass := false },
    { playerId := 2, color := StoneColor.white, x := 1, y := 1, timestamp := 8,
      capturedStones := [], pass := false },
    { playerId := 1, color := StoneColor.black, x := 2, y := 1, timestamp := 9,
      capturedStones := [{ x := 1, y := 1 }], pass := false } ]

/-- The session holding the simple-ko position: white to move, the white
recapture at (1,1) would recreate the whole-board position that stood
right after move 8 (the position one ply before the last board change a
real engine would compare against under the standard ko rule). -/
def koGame : Game :=
  { activeGame9 with boardState :=
    { activeGame9.boardState with
      board := koBoard, currentTurn := StoneColor.white,
      moveCount := 9, moveHistory := koHistory,
      lastMove := some { x := 2, y := 1, color := StoneColor.black, timestamp := 9 } } }

def c6One : Game := stepPass activeGame9 1 StoneColor.black 1
def c6Two : Game := stepPass c6One 2 StoneColor.white 2

/-- A waiting session with one seated player, as the create route leaves
a fresh game after seating its creator. -/
def waitingGame1 : Game :=
  { activeGame9 with
    status := GameSessionStatus.waiting,
    players := [{ blackSeat with isReady := false }],
    boardState := { activeGame9.boardState with board := [] } }

/-- A waiting session with both seats taken. -/
def waitingGame2 : Game :=
  { waitingGame1 with
    players := [{ blackSeat with isReady := false },
      { whiteSeat with isReady := false }] }

/-- An empty waiting session as `new Game(...)` creates it. -/
def waitingGame0 : Game := { waitingGame1 with players := [] }

def pdata1 : GamePlayerData := { playerId := 1, username := "alice", displayName := "Alice" }
def pdata2 : GamePlayerData := { playerId := 2, username := "bob", displayName := "Bob" }
def pdata3 : GamePlayerData := { playerId := 3, username := "carol", displayName := "Carol" }

/-- The session produced by the second player joining waitingGame1. -/
def joinedW1 : Game := (joinGame waitingGame1 pdata2 7).toOption.getD waitingGame1

theorem listMapSet {α β : Type} (f : α → β) (l : List α) :
    ∀ (i : Nat) (a : α), (l.set i a).map f = (l.map f).set i (f a) := by
  induction l with
  | nil => intro i a; cases i <;> rfl
  | cons x xs ih =>
    intro i a
    cases i with
    | zero => rfl
    | succ n =>
      show f x :: (xs.set n a).map f = f x :: ((xs.map f).set n (f a))
      rw [ih]

theorem listSetSelf {α : Type} (l : List α) :
    ∀ (i : Nat) (a : α), l.get? i = some a → l.set i a = l := by
  induction l with
  | nil => intro i a h; cases i <;> simp [List.get?] at h
  | cons x xs ih =>
    intro i a h
    cases i with
    | zero =>
      have hx : x = a := by simpa using h
      subst hx
      rfl
    | succ n =>
      show x :: xs.set n a = x :: xs
      have h2 : xs.get? n = some a := by simpa using h
      rw [ih n a h2]

theorem listGetMap {α β : Type} (f : α → β) (l : List α) :
    ∀ i : Nat, (l.map f).get? i = (l.get? i).map f := by
  induction l with
  | nil => intro i; cases i <;> rfl
  | cons x xs ih =>
    intro i
    cases i with
    | zero => rfl
    | succ n => exact ih n

theorem boardMeta_placeRaw (b : List (List GameBoardCell)) (x y : Nat) (c : StoneColor) :
    boardMeta (placeRaw b x y c) = boardMeta b := by
  unfold placeRaw getCell setCell
  cases hy : b.get? y with
  | none => rfl
  | some row =>
    have hbind : ((some row).bind fun r => r.get? x) = row.get? x := rfl
    rw [hbind]
    cases hx : row.get? x with
    | none => rfl
    | some cell =>
      show boardMeta (b.set y (row.set x { cell with stone := some c })) = boardMeta b
      unfold boardMeta
      rw [listMapSet, listMapSet]
      have h1 : ((row.map cellMeta).set x (cellMeta { cell with stone := some c }))
          = row.map cellMeta := by
        have h0 : cellMeta { cell with stone := some c } = cellMeta cell := rfl
        rw [h0]
        exact listSetSelf _ x _ (by rw [listGetMap, hx]; rfl)
      rw [h1]
      exact listSetSelf _ y _ (by rw [listGetMap, hy]; rfl)

theorem makeMove_error_state (g : Game) (pid : Nat) (x y : Int) (c : StoneColor) (t : Nat)
    (e : GameError) (s : Game) (h : makeMove g pid x y c t = Except.error (e, s)) :
    s = g := by
  unfold makeMove at h
  split at h
  · exact congrArg Prod.snd (Except.error.inj h) |>.symm
  split at h
  · exact congrArg Prod.snd (Except.error.inj h) |>.symm
  split at h
  · exact congrArg Prod.snd (Except.error.inj h) |>.symm
  split at h
  · exact congrArg Prod.snd (Except.error.inj h) |>.symm
  split at h
  · exact congrArg Prod.snd (Except.error.inj h) |>.symm
  · exact Except.noConfusion h

theorem passTurn_error_state (g : Game) (pid : Nat) (c : StoneColor) (t : Nat)
    (e : GameError) (s : Game) (h : passTurn g pid c t = Except.error (e, s)) :
    s = g := by
  unfold passTurn at h
  split at h
  · exact congrArg Prod.snd (Except.error.inj h) |>.symm
  split at h
  · exact congrArg Prod.snd (Except.error.inj h) |>.symm
  · exact Except.noConfusion h

theorem makeMove_ok_eq (g : Game) (pid : Nat) (x y : Int) (c : StoneColor) (t : Nat)
    (g2 : Game) (b : Bool) (h : makeMove g pid x y c t = Except.ok (g2, b)) :
    g2 = movedGame g pid x y c t ∧ b = true ∧
    g.status = GameSessionStatus.active ∧ g.boardState.currentTurn = c ∧
    ¬(x < 0 ∨ (g.gameSettings.boardSize : Int) ≤ x ∨ y < 0 ∨
      (g.gameSettings.boardSize : Int) ≤ y) ∧
    ∃ cell, getCell g.boardState.board y.toNat x.toNat = some cell ∧ cell.stone = none := by
  unfold makeMove at h
  split at h
  · exact Except.noConfusion h
  next h1 =>
  split at h
  · exact Except.noConfusion h
  next h2 =>
  split at h
  · exact Except.noConfusion h
  next h3 =>
  split at h
  · exact Except.noConfusion h
  next cell heq =>
  split at h
  · exact Except.noConfusion h
  next h4 =>
  have h5 := Except.ok.inj h
  have hg : g2 = _ := (congrArg Prod.fst h5).symm
  have hb : b = true := (congrArg Prod.snd h5).symm
  refine ⟨?_, hb, not_not.mp h1, not_not.mp h2, h3, ⟨cell, heq, not_not.mp h4⟩⟩
  rw [hg]
  simp only [movedGame, placeRaw, heq]

theorem passTurn_ok_eq (g : Game) (pid : Nat) (c : StoneColor) (t : Nat)
    (g2 : Game) (b : Bool) (h : passTurn g pid c t = Except.ok (g2, b)) :
    g2 = passedGame g pid c t ∧ b = true ∧
    g.status = GameSessionStatus.active ∧ g.boardState.currentTurn = c := by
  unfold passTurn at h
  split at h
  · exact Except.noConfusion h
  next h1 =>
  split at h
  · exact Except.noConfusion h
  next h2 =>
  have h5 := Except.ok.inj h
  have hg : g2 = _ := (congrArg Prod.fst h5).symm
  have hb : b = true := (congrArg Prod.snd h5).symm
  refine ⟨?_, hb, not_not.mp h1, not_not.mp h2⟩
  rw [hg]
  unfold passedGame passedBoardState
  rfl

theorem framePreserved_refl (g : Game) : framePreserved g g :=
  ⟨rfl, rfl, rfl, [], by simp, by simp⟩

theorem framePreserved_trans {g1 g2 g3 : Game}
    (h12 : framePreserved g1 g2) (h23 : framePreserved g2 g3) :
    framePreserved g1 g3 := by
  obtain ⟨hb12, hc12, hp12, es12, he12, hcl12⟩ := h12
  obtain ⟨hb23, hc23, hp23, es23, he23, hcl23⟩ := h23
  refine ⟨hb23.trans hb12, hc23.trans hc12, hp23.trans hp12, es12 ++ es23, ?_, ?_⟩
  · rw [he23, he12, List.append_assoc]
  · intro e he
    rcases List.mem_append.mp he with h | h
    · exact hcl12 e h
    · exact hcl23 e h

theorem movedGame_frame (g : Game) (pid : Nat) (x y : Int) (c : StoneColor) (t : Nat) :
    framePreserved g (movedGame g pid x y c t) := by
  refine ⟨boardMeta_placeRaw _ _ _ _, rfl, rfl,
    [{ playerId := pid, color := c, x := x, y := y, timestamp := t,
       capturedStones := [], pass := false }], rfl, ?_⟩
  intro e he
  rw [List.mem_singleton] at he
  subst he
  rfl

theorem passedGame_frame (g : Game) (pid : Nat) (c : StoneColor) (t : Nat) :
    framePreserved g (passedGame g pid c t) := by
  have hpf : ∀ g3 : Game,
      g3.boardState.moveHistory = g.boardState.moveHistory ++
        [{ playerId := pid, color := c, x := -1, y := -1, timestamp := t,
           capturedStones := [], pass := true }] →
      boardMeta g3.boardState.board = boardMeta g.boardState.board →
      g3.boardState.capturedStones = g.boardState.capturedStones →
      g3.players = g.players →
      framePreserved g g3 := by
    intro g3 h1 h2 h3 h4
    refine ⟨h2, h3, h4, _, h1, ?_⟩
    intro e he
    rw [List.mem_singleton] at he
    subst he
    rfl
  unfold passedGame
  split
  · exact hpf _ rfl rfl rfl rfl
  · exact hpf _ rfl rfl rfl rfl

theorem stepMove_frame (g : Game) (pid : Nat) (x y : Int) (c : StoneColor) (t : Nat) :
    framePreserved g (stepMove g pid x y c t) := by
  unfold stepMove
  cases h : makeMove g pid x y c t with
  | ok p =>
    obtain ⟨g2, bb⟩ := p
    obtain ⟨hg, _⟩ := makeMove_ok_eq g pid x y c t g2 bb h
    show framePreserved g g2
    rw [hg]
    exact movedGame_frame g pid x y c t
  | error p =>
    obtain ⟨e, s⟩ := p
    show framePreserved g s
    rw [makeMove_error_state g pid x y c t e s h]
    exact framePreserved_refl g

theorem stepPass_frame (g : Game) (pid : Nat) (c : StoneColor) (t : Nat) :
    framePreserved g (stepPass g pid c t) := by
  unfold stepPass
  cases h : passTurn g pid c t with
  | ok p =>
    obtain ⟨g2, bb⟩ := p
    obtain ⟨hg, _⟩ := passTurn_ok_eq g pid c t g2 bb h
    show framePreserved g g2
    rw [hg]
    exact passedGame_frame g pid c t
  | error p =>
    obtain ⟨e, s⟩ := p
    show framePreserved g s
    rw [passTurn_error_state g pid c t e s h]
    exact framePreserved_refl g

theorem applyOp_frame (g : Game) (op : GameOp) : framePreserved g (applyOp g op) := by
  cases op with
  | move pid x y c t => exact stepMove_frame g pid x y c t
  | pass pid c t => exact stepPass_frame g pid c t

theorem runOps_frame (g : Game) (ops : List GameOp) : framePreserved g (runOps g ops) := by
  induction ops generalizing g with
  | nil => exact framePreserved_refl g
  | cons op rest ih =>
    exact framePreserved_trans (applyOp_frame g op) (ih (applyOp g op))

theorem listGetSet {α : Type} (l : List α) :
    ∀ (n : Nat) (a : α) (m : Nat),
      (l.set n a).get? m = if m = n then (l.get? m).map (fun _ => a) else l.get? m := by
  induction l with
  | nil =>
    intro n a m
    cases n <;> cases m <;> simp [List.set, List.get?]
  | cons x xs ih =>
    intro n a m
    cases n with
    | zero =>
      cases m with
      | zero => rfl
      | succ m2 => simp [List.set, List.get?]
    | succ n2 =>
      cases m with
      | zero => simp [List.set, List.get?]
      | succ m2 =>
        show (xs.set n2 a).get? m2 = if m2 + 1 = n2 + 1 then (xs.get? m2).map (fun _ => a) else xs.get? m2
        rw [ih n2 a m2]
        simp

theorem getCell_setCell_ne (b : List (List GameBoardCell)) (y x : Nat)
    (c : GameBoardCell) (j i : Nat) (h : ¬(j = y ∧ i = x)) :
    getCell (setCell b y x c) j i = getCell b j i := by
  unfold setCell
  cases hy : b.get? y with
  | none => rfl
  | some row =>
    unfold getCell
    rw [listGetSet]
    by_cases hj : j = y
    · subst hj
      have hix : ¬ i = x := fun hh => h ⟨rfl, hh⟩
      rw [if_pos rfl, hy]
      show (row.set x c).get? i = row.get? i
      rw [listGetSet, if_neg hix]
    · rw [if_neg hj]

theorem getCell_setCell_eq (b : List (List GameBoardCell)) (y x : Nat)
    (cell c : GameBoardCell) (h : getCell b y x = some cell) :
    getCell (setCell b y x c) y x = some c := by
  unfold setCell
  cases hy : b.get? y with
  | none =>
    unfold getCell at h
    rw [hy] at h
    exact Option.noConfusion h
  | some row =>
    have hx : row.get? x = some cell := by
      unfold getCell at h
      rw [hy] at h
      exact h
    unfold getCell
    rw [listGetSet, if_pos rfl, hy]
    show ((some (row.set x c)).bind fun r => r.get? x) = some c
    have hb : ((some (row.set x c)).bind fun r => r.get? x) = (row.set x c).get? x := rfl
    rw [hb, listGetSet, if_pos rfl, hx]
    rfl

theorem getCell_placeRaw_ne (b : List (List GameBoardCell)) (x y : Nat)
    (c : StoneColor) (j i : Nat) (h : ¬(j = y ∧ i = x)) :
    getCell (placeRaw b x y c) j i = getCell b j i := by
  unfold placeRaw
  cases hc : getCell b y x with
  | none => rfl
  | some cell => exact getCell_setCell_ne b y x _ j i h

theorem getCell_placeRaw_eq (b : List (List GameBoardCell)) (x y : Nat)
    (c : StoneColor) (cell : GameBoardCell)
    (h : getCell b y x = some cell) :
    getCell (placeRaw b x y c) y x = some { cell with stone := some c } := by
  unfold placeRaw
  rw [h]
  exact getCell_setCell_eq b y x cell _ h

/-- Acceptance of makeMove is fully characterized by the four source
checks. -/
theorem makeMove_accepts_iff (g : Game) (pid : Nat) (x y : Int) (c : StoneColor) (t : Nat) :
    exceptIsOk (makeMove g pid x y c t) = true ↔
      (g.status = GameSessionStatus.active ∧ g.boardState.currentTurn = c ∧
       ¬(x < 0 ∨ (g.gameSettings.boardSize : Int) ≤ x ∨ y < 0 ∨
         (g.gameSettings.boardSize : Int) ≤ y) ∧
       ∃ cell, getCell g.boardState.board y.toNat x.toNat = some cell ∧
         cell.stone = none) := by
  constructor
  · intro h
    cases hm : makeMove g pid x y c t with
    | ok p =>
      obtain ⟨g2, b⟩ := p
      obtain ⟨-, -, h1, h2, h3, cell, hcell, h4⟩ := makeMove_ok_eq g pid x y c t g2 b hm
      exact ⟨h1, h2, h3, cell, hcell, h4⟩
    | error p =>
      rw [hm] at h
      exact absurd h (by simp [exceptIsOk])
  · rintro ⟨h1, h2, h3, cell, hcell, h4⟩
    unfold makeMove
    rw [if_neg (not_not_intro h1), if_neg (not_not_intro h2), if_neg h3, hcell]
    show exceptIsOk (if cell.stone ≠ none then Except.error (GameError.positionOccupied, g) else _) = true
    rw [if_neg (not_not_intro h4)]
    rfl

/-- C1: the spec requires makeMove to remove every adjacent opposing
group whose liberty count drops to zero and to credit the mover with the
capture. On the board where black has fully surrounded the lone white
stone at (0,0) - its flood-fill liberty count is 0 after the move - the
accepted move removes nothing: the white stone is still on the board,
both capture counters are still 0, every history entry (including the
capturing move) carries an empty capturedStones set and the player
records are untouched. -/
theorem C1_surrounded_stone_not_captured :
    makeMove c1Mid2 1 0 1 StoneColor.black 3 = Except.ok (c1After, true) ∧
    stoneAt c1After.boardState.board 0 0 = some StoneColor.white ∧
    libertyCountAt c1After.boardState.board 9 0 0 = 0 ∧
    c1After.boardState.capturedStones = { black := 0, white := 0 } ∧
    c1After.boardState.moveHistory.map (fun e => e.capturedStones) = [[], [], []] ∧
    c1After.players = activeGame9.players := by
  exact ⟨by decide, by decide, by decide, by decide, by decide, by decide⟩

/-- C2: the spec invariant says every group on the board after an
accepted move has flood-fill liberty count at least 1. After the
accepted move that fills the last liberty of the white stone at (0,0),
that stone is still on the board and its maximal group, computed by
flood fill, has liberty count 0. -/
theorem C2_zero_liberty_group_survives :
    exceptIsOk (makeMove c1Mid2 1 0 1 StoneColor.black 3) = true ∧
    stoneAt c1After.boardState.board 0 0 = some StoneColor.white ∧
    groupAt c1After.boardState.board 9 0 0 = [(0, 0)] ∧
    groupLibertyCount c1After.boardState.board 9 [(0, 0)] = 0 := by
  exact ⟨by decide, by decide, by decide, by decide⟩

/-- C3: the spec requires a position-repetition (ko) check, but makeMove
accepts any move that passes the four source checks; neither the koRule
field nor the recorded history enters the decision, so the white
recapture at (1,1) in a live simple-ko position under koRule standard is
accepted rather than rejected as a KoViolation. -/
theorem C3_ko_recapture_accepted :
    (∀ (g : Game) (pid : Nat) (x y : Int) (c : StoneColor) (t : Nat),
      exceptIsOk (makeMove g pid x y c t) = true ↔
        (g.status = GameSessionStatus.active ∧ g.boardState.currentTurn = c ∧
         ¬(x < 0 ∨ (g.gameSettings.boardSize : Int) ≤ x ∨ y < 0 ∨
           (g.gameSettings.boardSize : Int) ≤ y) ∧
         ∃ cell, getCell g.boardState.board y.toNat x.toNat = some cell ∧
           cell.stone = none)) ∧
    koGame.gameRules.koRule = KoRule.standard ∧
    exceptIsOk (makeMove koGame 2 1 1 StoneColor.white 10) = true ∧
    stoneAt (stepMove koGame 2 1 1 StoneColor.white 10).boardState.board 1 1 =
      some StoneColor.white ∧
    stoneAt (stepMove koGame 2 1 1 StoneColor.white 10).boardState.board 2 1 =
      some StoneColor.black := by
  exact ⟨makeMove_accepts_iff, by decide, by decide, by decide, by decide⟩

/-- C4: under the default ruleset (suicideAllowed = false) the spec
rejects a placement whose own resulting group has zero liberties and
captures nothing. The code accepts the black play at (0,0) into the
point surrounded by white: the resulting black group has flood-fill
liberty count 0, no stone was captured, and no error is raised. -/
theorem C4_suicide_accepted :
    c4Mid.gameRules.suicideAllowed = false ∧
    makeMove c4Mid 1 0 0 StoneColor.black 5 = Except.ok (c4After, true) ∧
    stoneAt c4After.boardState.board 0 0 = some StoneColor.black ∧
    groupAt c4After.boardState.board 9 0 0 = [(0, 0)] ∧
    groupLibertyCount c4After.boardState.board 9 [(0, 0)] = 0 ∧
    c4After.boardState.capturedStones = { black := 0, white := 0 } := by
  exact ⟨by decide, by decide, by decide, by decide, by decide, by decide⟩

/-- C5: every rejected makeMove or passTurn throws one of the specific
source reasons, each thrown before any field is written, so the carried
session state equals the input state exactly. -/
theorem C5_rejections_specific_and_atomic :
    (∀ g pid x y c t e s, makeMove g pid x y c t = Except.error (e, s) → s = g) ∧
    (∀ g pid c t e s, passTurn g pid c t = Except.error (e, s) → s = g) ∧
    (∀ g pid x y c t, g.status ≠ GameSessionStatus.active →
      makeMove g pid x y c t = Except.error (GameError.gameNotActive, g)) ∧
    (∀ g pid x y c t, g.status = GameSessionStatus.active →
      g.boardState.currentTurn ≠ c →
      makeMove g pid x y c t = Except.error (GameError.notYourTurn, g)) ∧
    (∀ g pid x y c t, g.status = GameSessionStatus.active →
      g.boardState.currentTurn = c →
      (x < 0 ∨ (g.gameSettings.boardSize : Int) ≤ x ∨ y < 0 ∨
        (g.gameSettings.boardSize : Int) ≤ y) →
      makeMove g pid x y c t = Except.error (GameError.invalidCoordinates, g)) ∧
    (∀ g pid x y c t cell, g.status = GameSessionStatus.active →
      g.boardState.currentTurn = c →
      ¬(x < 0 ∨ (g.gameSettings.boardSize : Int) ≤ x ∨ y < 0 ∨
        (g.gameSettings.boardSize : Int) ≤ y) →
      getCell g.boardState.board y.toNat x.toNat = some cell →
      cell.stone ≠ none →
      makeMove g pid x y c t = Except.error (GameError.positionOccupied, g)) ∧
    (∀ g pid c t, g.status ≠ GameSessionStatus.active →
      passTurn g pid c t = Except.error (GameError.gameNotActive, g)) ∧
    (∀ g pid c t, g.status = GameSessionStatus.active →
      g.boardState.currentTurn ≠ c →
      passTurn g pid c t = Except.error (GameError.notYourTurn, g)) := by
  refine ⟨makeMove_error_state, passTurn_error_state, ?_, ?_, ?_, ?_, ?_, ?_⟩
  · intro g pid x y c t h
    unfold makeMove
    rw [if_pos h]
  · intro g pid x y c t h1 h2
    unfold makeMove
    rw [if_neg (not_not_intro h1), if_pos h2]
  · intro g pid x y c t h1 h2 h3
    unfold makeMove
    rw [if_neg (not_not_intro h1), if_neg (not_not_intro h2), if_pos h3]
  · intro g pid x y c t cell h1 h2 h3 hcell h4
    unfold makeMove
    rw [if_neg (not_not_intro h1), if_neg (not_not_intro h2), if_neg h3, hcell]
    show (if cell.stone ≠ none then Except.error (GameError.positionOccupied, g) else _) = _
    rw [if_pos h4]
  · intro g pid c t h
    unfold passTurn
    rw [if_pos h]
  · intro g pid c t h1 h2
    unfold passTurn
    rw [if_neg (not_not_intro h1), if_pos h2]

/-- C5 witness: a move submitted to a waiting session is rejected with
the gameNotActive reason and the carried state is the input state. -/
theorem C5_rejections_witness :
    makeMove waitingGame1 1 0 0 StoneColor.black 0 =
      Except.error (GameError.gameNotActive, waitingGame1) ∧
    waitingGame1 = waitingGame1 :=
  ⟨by decide,
   C5_rejections_specific_and_atomic.1 waitingGame1 1 0 0 StoneColor.black 0
     GameError.gameNotActive waitingGame1 (by decide)⟩

/-- C6: each pass appends a pass move, increments the consecutive-pass
counter and flips the turn, and the second consecutive pass flips the
status to completed - but no scoring happens: the player score fields
stay 0, the capture counters stay 0 and the session records no result
of any kind (the schema has no result field), so no computed scoring
result is produced. -/
theorem C6_double_pass_completes_without_score :
    passTurn activeGame9 1 StoneColor.black 1 = Except.ok (c6One, true) ∧
    c6One.status = GameSessionStatus.active ∧
    c6One.boardState.consecutivePasses = 1 ∧
    c6One.boardState.currentTurn = StoneColor.white ∧
    c6One.boardState.moveHistory.map (fun e => e.pass) = [true] ∧
    passTurn c6One 2 StoneColor.white 2 = Except.ok (c6Two, true) ∧
    c6Two.status = GameSessionStatus.completed ∧
    c6Two.boardState.consecutivePasses = 2 ∧
    c6Two.boardState.moveHistory.map (fun e => e.pass) = [true, true] ∧
    c6Two.players.map (fun p => p.score) = [0, 0] ∧
    c6Two.players = activeGame9.players ∧
    c6Two.boardState.board = activeGame9.boardState.board := by
  exact ⟨by decide, by decide, by decide, by decide, by decide, by decide,
    by decide, by decide, by decide, by decide, by decide, by decide⟩

/-- C7 counterexample: the commit of an accepted move is not limited to
the four changes the claim lists (append move, place stone, reset the
pass counter, flip the turn): on the very first move of a fresh 9x9
session the commit also increments moveCount from 0 to 1 and overwrites
lastMove, so a state performing only the four listed changes differs
from the state makeMove actually returns. -/
theorem C7_counterexample_extra_changes :
    makeMove activeGame9 1 1 0 StoneColor.black 5 =
      Except.ok (movedGame activeGame9 1 1 0 StoneColor.black 5, true) ∧
    makeMove activeGame9 1 1 0 StoneColor.black 5 ≠
      Except.ok (specCommitOnly activeGame9 1 1 0 StoneColor.black 5, true) ∧
    (movedGame activeGame9 1 1 0 StoneColor.black 5).boardState.moveCount = 1 ∧
    (specCommitOnly activeGame9 1 1 0 StoneColor.black 5).boardState.moveCount = 0 ∧
    activeGame9.boardState.moveCount = 0 ∧
    (movedGame activeGame9 1 1 0 StoneColor.black 5).boardState.lastMove ≠
      activeGame9.boardState.lastMove := by
  exact ⟨by decide, by decide, by decide, by decide, by decide, by decide⟩

/-- C7 amended: an accepted makeMove commits exactly these state
changes: it appends the move to the history, places the stone on the
target cell, resets the consecutive-pass counter to 0, flips the turn,
increments moveCount and sets lastMove; status, players, settings,
rules, gameId and the capture counters are unchanged. -/
theorem C7_commit_exactly :
    ∀ g pid x y c t g2 b, makeMove g pid x y c t = Except.ok (g2, b) →
      g2.status = g.status ∧ g2.players = g.players ∧
      g2.gameSettings = g.gameSettings ∧ g2.gameRules = g.gameRules ∧
      g2.gameId = g.gameId ∧
      g2.boardState.moveHistory = g.boardState.moveHistory ++
        [{ playerId := pid, color := c, x := x, y := y, timestamp := t,
           capturedStones := [], pass := false }] ∧
      g2.boardState.board = placeRaw g.boardState.board x.toNat y.toNat c ∧
      g2.boardState.consecutivePasses = 0 ∧
      g2.boardState.currentTurn =
        (if c = StoneColor.black then StoneColor.white else StoneColor.black) ∧
      g2.boardState.moveCount = g.boardState.moveCount + 1 ∧
      g2.boardState.lastMove = some { x := x, y := y, color := c, timestamp := t } ∧
      g2.boardState.capturedStones = g.boardState.capturedStones := by
  intro g pid x y c t g2 b h
  obtain ⟨hg, -, -, -, -, -⟩ := makeMove_ok_eq g pid x y c t g2 b h
  subst hg
  exact ⟨rfl, rfl, rfl, rfl, rfl, rfl, rfl, rfl, rfl, rfl, rfl, rfl⟩

/-- C7 witness: the amended characterization applied to the first move
of a fresh 9x9 session. -/
theorem C7_commit_exactly_witness :
    (movedGame activeGame9 1 1 0 StoneColor.black 5).boardState.moveCount =
      activeGame9.boardState.moveCount + 1 ∧
    (movedGame activeGame9 1 1 0 StoneColor.black 5).boardState.consecutivePasses = 0 := by
  have h := C7_commit_exactly activeGame9 1 1 0 StoneColor.black 5
    (movedGame activeGame9 1 1 0 StoneColor.black 5) true (by decide)
  exact ⟨h.2.2.2.2.2.2.2.2.2.1, h.2.2.2.2.2.2.2.1⟩

/-- C8: the join flow succeeds only while the session is waiting,
rejects with the session-full reason when two seats are taken and with
the already-seated reason when the joining identifier already holds a
seat; on success the first seated player is assigned black and the
second white, deterministically. -/
theorem C8_join_seating :
    (∀ g pd t, g.status ≠ GameSessionStatus.waiting →
      joinGame g pd t = Except.error JoinError.gameNotAcceptingPlayers) ∧
    (∀ g pd t, g.status = GameSessionStatus.waiting → g.players.length ≥ 2 →
      joinGame g pd t = Except.error JoinError.gameIsFull) ∧
    (∀ g pd t, g.status = GameSessionStatus.waiting → g.players.length < 2 →
      (∃ p ∈ g.players, p.playerId = pd.playerId) →
      joinGame g pd t = Except.error JoinError.alreadyInGame) ∧
    (∀ g pd t g2, joinGame g pd t = Except.ok g2 →
      g.status = GameSessionStatus.waiting ∧
      g.players.length < 2 ∧
      (∀ p ∈ g.players, p.playerId ≠ pd.playerId) ∧
      g2.players = g.players ++
        [{ playerId := pd.playerId, username := pd.username,
           displayName := pd.displayName,
           color := if g.players.length = 0 then StoneColor.black
             else StoneColor.white,
           isReady := false, isConnected := true, lastSeen := t,
           timeRemaining := none, score := 0, capturedStones := 0 }] ∧
      (g.players.length = 0 →
        g2.players.map (fun p => p.color) = [StoneColor.black]) ∧
      (g.players.length = 1 →
        (g2.players.map (fun p => p.color)).get? 1 = some StoneColor.white)) := by
  refine ⟨?_, ?_, ?_, ?_⟩
  · intro g pd t h
    unfold joinGame
    rw [if_pos h]
  · intro g pd t h1 h2
    unfold joinGame
    rw [if_neg (not_not_intro h1), if_pos h2]
  · intro g pd t h1 h2 h3
    unfold joinGame
    have hany : g.players.any (fun p => p.playerId == pd.playerId) = true := by
      rw [List.any_eq_true]
      obtain ⟨p, hp, hpe⟩ := h3
      exact ⟨p, hp, beq_iff_eq.mpr hpe⟩
    rw [if_neg (not_not_intro h1), if_neg (Nat.not_le.mpr h2), if_pos hany]
  · intro g pd t g2 h
    unfold joinGame at h
    split at h
    · exact Except.noConfusion h
    next h1 =>
    split at h
    · exact Except.noConfusion h
    next h2 =>
    split at h
    · exact Except.noConfusion h
    next h3 =>
    split at h
    next g3 heq =>
      unfold addPlayer at heq
      split at heq
      · exact Except.noConfusion heq
      next h4 =>
        have hg3 : g3 = { g with players := g.players ++
            [{ playerId := pd.playerId, username := pd.username,
               displayName := pd.displayName,
               color := if g.players.length = 0 then StoneColor.black
                 else StoneColor.white,
               isReady := false, isConnected := true, lastSeen := t,
               timeRemaining := none, score := 0, capturedStones := 0 }] } :=
          (Except.ok.inj heq).symm
        have hg2 : g2 = g3 := (Except.ok.inj h).symm
        subst hg2
        subst hg3
        have hlen : g.players.length < 2 := Nat.not_le.mp h2
        have hnot : ∀ p ∈ g.players, p.playerId ≠ pd.playerId := by
          intro p hp hpe
          exact h3 (by
            rw [List.any_eq_true]
            exact ⟨p, hp, beq_iff_eq.mpr hpe⟩)
        refine ⟨not_not.mp h1, hlen, hnot, rfl, ?_, ?_⟩
        · intro h0
          have : g.players = [] := List.length_eq_zero.mp h0
          rw [this]
          rfl
        · intro h1len
          obtain ⟨p0, hp0⟩ := List.length_eq_one.mp h1len
          rw [hp0]
          rfl
    next p heq => exact Except.noConfusion h

/-- C8 witness: the four branches of the join flow, each exercised at a
concrete session. -/
theorem C8_join_seating_witness :
    joinGame activeGame9 pdata3 7 = Except.error JoinError.gameNotAcceptingPlayers ∧
    joinGame waitingGame2 pdata3 7 = Except.error JoinError.gameIsFull ∧
    joinGame waitingGame1 pdata1 7 = Except.error JoinError.alreadyInGame ∧
    (joinedW1.players.map (fun p => p.color)).get? 1 = some StoneColor.white :=
  ⟨C8_join_seating.1 activeGame9 pdata3 7 (by decide),
   C8_join_seating.2.1 waitingGame2 pdata3 7 (by decide) (by decide),
   C8_join_seating.2.2.1 waitingGame1 pdata1 7 (by decide) (by decide) (by decide),
   (C8_join_seating.2.2.2 waitingGame1 pdata2 7 joinedW1
     (by decide)).2.2.2.2.2 (by decide)⟩

/-- C9: an accepted makeMove writes only the target cell stone plus the
bookkeeping fields; across any sequence of moves and passes from any
starting state, the per-cell liberties and groupId fields, the capture
counters and the player roster never change, and every history entry
ever appended carries an empty capturedStones list. -/
theorem C9_move_frame :
    (∀ g pid x y c t g2 b, makeMove g pid x y c t = Except.ok (g2, b) →
      framePreserved g g2 ∧
      g2.boardState.board = placeRaw g.boardState.board x.toNat y.toNat c ∧
      (∀ j i, ¬(j = y.toNat ∧ i = x.toNat) →
        getCell g2.boardState.board j i = getCell g.boardState.board j i) ∧
      (∀ cell, getCell g.boardState.board y.toNat x.toNat = some cell →
        getCell g2.boardState.board y.toNat x.toNat =
          some { cell with stone := some c })) ∧
    (∀ g ops, framePreserved g (runOps g ops)) ∧
    (∀ size g ops, g.boardState.board = initializeBoard size →
      boardMeta (runOps g ops).boardState.board = boardMeta (initializeBoard size)) ∧
    (∀ g ops, g.boardState.capturedStones = { black := 0, white := 0 } →
      (runOps g ops).boardState.capturedStones = { black := 0, white := 0 }) ∧
    (∀ g ops, (∀ e ∈ g.boardState.moveHistory, e.capturedStones = []) →
      ∀ e ∈ (runOps g ops).boardState.moveHistory, e.capturedStones = []) := by
  refine ⟨?_, runOps_frame, ?_, ?_, ?_⟩
  · intro g pid x y c t g2 b h
    obtain ⟨hg, -, -, -, -, -⟩ := makeMove_ok_eq g pid x y c t g2 b h
    subst hg
    refine ⟨movedGame_frame g pid x y c t, rfl, ?_, ?_⟩
    · intro j i hji
      exact getCell_placeRaw_ne g.boardState.board x.toNat y.toNat c j i hji
    · intro cell hcell
      exact getCell_placeRaw_eq g.boardState.board x.toNat y.toNat c cell hcell
  · intro size g ops hinit
    obtain ⟨hb, -, -, -⟩ := runOps_frame g ops
    rw [hb, hinit]
  · intro g ops hc
    obtain ⟨-, hcs, -, -⟩ := runOps_frame g ops
    rw [hcs, hc]
  · intro g ops hclean e he
    obtain ⟨-, -, -, es, hes, hcl⟩ := runOps_frame g ops
    rw [hes] at he
    rcases List.mem_append.mp he with hmem | hmem
    · exact hclean e hmem
    · exact hcl e hmem

/-- C9 witness: the frame relation holds for the first accepted move of
a fresh 9x9 session. -/
theorem C9_move_frame_witness :
    framePreserved activeGame9 (movedGame activeGame9 1 1 0 StoneColor.black 5) :=
  (C9_move_frame.1 activeGame9 1 1 0 StoneColor.black 5
    (movedGame activeGame9 1 1 0 StoneColor.black 5) true (by decide)).1

/-- C10: whenever makeMove or passTurn returns instead of throwing, the
returned boolean is true, so the callers branch handling a false return
is unreachable. -/
theorem C10_never_returns_false :
    (∀ g pid x y c t g2 b, makeMove g pid x y c t = Except.ok (g2, b) → b = true) ∧
    (∀ g pid c t g2 b, passTurn g pid c t = Except.ok (g2, b) → b = true) := by
  constructor
  · intro g pid x y c t g2 b h
    exact (makeMove_ok_eq g pid x y c t g2 b h).2.1
  · intro g pid c t g2 b h
    exact (passTurn_ok_eq g pid c t g2 b h).2.1

/-- C10 witness: the first move of a fresh session returns true. -/
theorem C10_never_returns_false_witness :
    makeMove activeGame9 1 1 0 StoneColor.black 5 =
      Except.ok (movedGame activeGame9 1 1 0 StoneColor.black 5, true) ∧
    (true : Bool) = true :=
  ⟨by decide,
   C10_never_returns_false.1 activeGame9 1 1 0 StoneColor.black 5
     (movedGame activeGame9 1 1 0 StoneColor.black 5) true (by decide)⟩
